import Mathlib

/-!
# The Node.js `Model` binding (`src/bindings/js/node/src/model_wrap.cpp`)

A shallow embedding of `ModelWrap`: the adapter that exposes an `ov::Model`
handle to the JavaScript runtime, and the properties of its accessors.

* The engine (`ov::Model`), the port adapter (`Output<ov::Node>::wrap`),
  `reportError` and `AddonData` are declared outside this source file; they are
  modelled from the specification and marked as such.
* node-addon-api values are modelled by the small algebraic types below.
-/

set_option autoImplicit false

namespace ModelWrapSpec

/-! ## The engine side -/

/-- Modelled from the spec: a port descriptor (`ov::Output<ov::Node>`), an opaque
engine value identifying one connection point of a model and carrying its name. -/
structure Port where
  id : Nat
  name : String
  deriving DecidableEq, Repr

/-- Modelled from the spec: the engine's model object (`ov::Model`) as seen
through its query interface: a name that may be empty and the ordered input and
output ports. -/
structure Model where
  name : String
  inputs : List Port
  outputs : List Port
  deriving DecidableEq, Repr

/-- Modelled from the spec: the ways an engine port query fails. -/
inductive EngineFailure where
  /-- The zero-argument form on a model whose port is not uniquely determined. -/
  | not_unique
  /-- The by-name form when no port carries the name. -/
  | name_not_found (tensor_name : String)
  /-- The by-index form when the index is outside the collection. -/
  | out_of_range (i : Nat)
  deriving DecidableEq, Repr

/-- A C++ exception (all of them derive from `std::exception`). -/
inductive NativeException where
  /-- `OPENVINO_THROW(text)` executed by the adapter itself. -/
  | openvino_throw (text : String)
  /-- An exception raised inside an engine query. -/
  | engine (failure : EngineFailure)
  /-- A `Napi::Error` thrown by a failed node-addon-api call. -/
  | napi_error
  deriving DecidableEq, Repr

/-- Modelled from the spec: `ov::Model::get_name()`, the engine-reported name. -/
def Model.get_name (m : Model) : String := m.name

/-- Modelled from the spec: `ov::Model::input()`; the zero-argument form fails
when the port is not uniquely determined (zero ports, or more than one). -/
def Model.input (m : Model) : Except NativeException Port :=
  match m.inputs with
  | [p] => .ok p
  | _ => .error (.engine .not_unique)

/-- Modelled from the spec: `ov::Model::input(tensor_name)`, lookup by name. -/
def Model.input_by_name (m : Model) (tensor_name : String) : Except NativeException Port :=
  match m.inputs.find? (fun p => p.name == tensor_name) with
  | some p => .ok p
  | none => .error (.engine (.name_not_found tensor_name))

/-- Modelled from the spec: `ov::Model::input(size_t i)`, lookup by position. -/
def Model.input_at (m : Model) (i : Nat) : Except NativeException Port :=
  match m.inputs[i]? with
  | some p => .ok p
  | none => .error (.engine (.out_of_range i))

/-- Modelled from the spec: `ov::Model::output()`, the analog of `input()`. -/
def Model.output (m : Model) : Except NativeException Port :=
  match m.outputs with
  | [p] => .ok p
  | _ => .error (.engine .not_unique)

/-- Modelled from the spec: `ov::Model::output(tensor_name)`, lookup by name. -/
def Model.output_by_name (m : Model) (tensor_name : String) : Except NativeException Port :=
  match m.outputs.find? (fun p => p.name == tensor_name) with
  | some p => .ok p
  | none => .error (.engine (.name_not_found tensor_name))

/-- Modelled from the spec: `ov::Model::output(size_t i)`, lookup by position. -/
def Model.output_at (m : Model) (i : Nat) : Except NativeException Port :=
  match m.outputs[i]? with
  | some p => .ok p
  | none => .error (.engine (.out_of_range i))

/-! ## The host runtime side (node-addon-api) -/

/-- A JavaScript number: a finite double `m * 2 ^ e`, or a non-finite value. -/
inductive JsNumber where
  | finite (m : Int) (e : Int)
  | nan
  | pos_inf
  | neg_inf
  deriving DecidableEq, Repr

/-- The bottom 32 bits of an integer, read as a signed 32-bit integer. -/
def wrap_int32 (z : Int) : Int := (z + 2 ^ 31) % 2 ^ 32 - 2 ^ 31

/-- The integer part (rounding toward zero) of a finite double. -/
def JsNumber.trunc (m e : Int) : Int :=
  if 0 ≤ e then m * 2 ^ e.toNat else m.tdiv (2 ^ (-e).toNat)

/-- `Napi::Number::Int32Value()`: the integer part truncated to the bottom 32
bits; zero for the non-finite values. -/
def JsNumber.Int32Value : JsNumber → Int
  | .finite m e => wrap_int32 (JsNumber.trunc m e)
  | _ => 0

/-- The number `x` is exactly the integer `i`. -/
def JsNumber.isInteger (x : JsNumber) (i : Int) : Prop :=
  match x with
  | .finite m e => if 0 ≤ e then m * 2 ^ e.toNat = i else m = i * 2 ^ (-e).toNat
  | _ => False

instance (x : JsNumber) (i : Int) : Decidable (x.isInteger i) := by
  unfold JsNumber.isInteger
  cases x <;> infer_instance

/-- The conversion of an `int32_t` argument to the `size_t` parameter of the
engine's positional lookup (64-bit `size_t`). -/
def to_size_t (i : Int) : Nat := (i % 2 ^ 64).toNat

/-- A value the runtime passes as an argument (`info[i]`). -/
inductive JsArg where
  | undefined
  | null
  | boolean (b : Bool)
  | number (x : JsNumber)
  | string (s : String)
  | symbol
  | bigint (z : Int)
  | function
  | object
  deriving DecidableEq, Repr

/-- `Napi::Value::IsString()`. -/
def JsArg.IsString : JsArg → Bool
  | .string _ => true
  | _ => false

/-- `Napi::Value::IsNumber()`. -/
def JsArg.IsNumber : JsArg → Bool
  | .number _ => true
  | _ => false

/-- `Napi::Value::ToString()` followed by the conversion to `std::string`,
on an argument that is a string. -/
def JsArg.ToString : JsArg → String
  | .string s => s
  | _ => ""

/-- `As<Napi::Number>().Int32Value()`, on an argument that is a number. -/
def JsArg.Int32Value : JsArg → Int
  | .number x => x.Int32Value
  | _ => 0

/-- `Napi::CallbackInfo`: the arguments of one call. -/
abbrev CallbackInfo := List JsArg

/-- `info.Length()`. -/
def CallbackInfo.Length (info : CallbackInfo) : Nat := info.length

/-- `info[i]`; the runtime yields `undefined` past the last argument. -/
def CallbackInfo.get (info : CallbackInfo) (i : Nat) : JsArg := info.getD i .undefined

/-- A value the adapter hands back to the runtime. -/
inductive NapiValue where
  /-- `Napi::Value()`, the empty value. -/
  | empty
  /-- `env.Undefined()`. -/
  | undefined
  /-- `Napi::String::New(env, s)`. -/
  | string (s : String)
  /-- A port wrapped by the port adapter. -/
  | output (p : Port)
  deriving DecidableEq, Repr

/-- A `Napi::Array`. -/
abbrev NapiArray := List NapiValue

/-- `Napi::Array::New(env, n)`: `n` slots that read as `undefined`. -/
def NapiArray.New (n : Nat) : NapiArray := List.replicate n .undefined

/-- The assignment `arr[i] = v`; writing past the end grows the array. -/
def NapiArray.assign (arr : NapiArray) (i : Nat) (v : NapiValue) : NapiArray :=
  if i < arr.length then arr.set i v
  else arr ++ List.replicate (i - arr.length) .undefined ++ [v]

/-- Modelled from the spec: `Output<ov::Node>::wrap(env, port)`, the separate
port adapter; each access produces a fresh wrapped instance of the port. -/
def Output.wrap (p : Port) : NapiValue := .output p

/-- The text handed to the error channel. -/
inductive Message where
  /-- A text composed by the adapter. -/
  | text (s : String)
  /-- The `what()` of a caught exception. -/
  | what (e : NativeException)
  deriving DecidableEq, Repr

/-- Modelled from the spec: `reportError(env, msg)` surfaces `msg` through the
runtime's error channel; it does not throw a C++ exception. -/
def reportError (msg : Message) : Option Message := some msg

/-- How a call into the adapter ends. -/
inductive Outcome (α : Type) where
  /-- The call returned `value`; `reported` is what went to the error channel. -/
  | returned (value : α) (reported : Option Message)
  /-- A C++ exception left the call. -/
  | threw (e : NativeException)
  /-- The call dereferenced an unset `_model` handle. -/
  | null_deref
  deriving DecidableEq, Repr

/-! ## `ModelWrap` -/

/-- The adapter instance; `_model` is the `std::shared_ptr<ov::Model>` member,
`none` when unset. (`_core` and `_compiled_model` are read by no function of
this file.) -/
structure ModelWrap where
  _model : Option Model
  deriving DecidableEq, Repr

/-- The constructor `ModelWrap::ModelWrap(info)`: `_model{}`. -/
def ModelWrap.construct : ModelWrap := { _model := none }

/-- The class definition produced by `DefineClass`. -/
structure NapiFunction where
  class_name : String
  methods : List String
  accessors : List String
  deriving DecidableEq, Repr

/-- `ModelWrap::get_class_constructor`. -/
def get_class_constructor : NapiFunction :=
  { class_name := "ModelWrap"
    methods := ["getName", "output", "input"]
    accessors := ["inputs", "outputs"] }

/-- A `Napi::FunctionReference` made by `Napi::Persistent`. -/
structure FunctionReference where
  target : NapiFunction
  deriving DecidableEq, Repr

/-- Modelled from the spec: `AddonData`, the addon-wide state; of its fields
only the model prototype registration is used here (`none` is the null pointer). -/
structure AddonData where
  model_prototype : Option FunctionReference
  deriving DecidableEq, Repr

/-- The environment (`Napi::Env`) as this file uses it: the addon's instance
data, the native `ModelWrap` instances constructed so far (by address), and the
stack of live handles, each naming the address of an instance. (The class
function is held through a persistent reference, which no handle scope
releases, so it has no slot here.) -/
structure Env where
  data : AddonData
  instances : List ModelWrap
  handles : List Nat
  deriving DecidableEq, Repr

/-- A `Napi::Object` (a `napi_value`): a slot of the handle stack. -/
structure NapiObject where
  slot : Nat
  deriving DecidableEq, Repr

/-- `env.GetInstanceData<AddonData>()`. -/
def Env.GetInstanceData (env : Env) : AddonData := env.data

/-- A `Napi::HandleScope`: the height of the handle stack when it was opened. -/
structure HandleScope where
  height : Nat
  deriving DecidableEq, Repr

/-- The constructor `Napi::HandleScope scope(env)`. -/
def HandleScope.construct (env : Env) : HandleScope := { height := env.handles.length }

/-- The destructor of a `Napi::HandleScope`: every handle created since the
scope was opened is released. -/
def HandleScope.destruct (scope : HandleScope) (env : Env) : Env :=
  { env with handles := env.handles.take scope.height }

/-- `prototype->New({})`: runs the class constructor with no arguments, which
allocates the native instance, and hands back a handle to the new object in the
innermost open scope. -/
def FunctionReference.New (_ref : FunctionReference) (env : Env) : NapiObject × Env :=
  ({ slot := env.handles.length },
   { env with
     instances := env.instances ++ [ModelWrap.construct]
     handles := env.handles ++ [env.instances.length] })

/-- `Napi::ObjectWrap<ModelWrap>::Unwrap(obj)`: the address of the native
instance behind the object the handle names; `none` when the slot holds no live
handle to an instance (the library call fails). -/
def Unwrap (env : Env) (obj : NapiObject) : Option Nat :=
  match env.handles[obj.slot]? with
  | some addr => if addr < env.instances.length then some addr else none
  | none => none

/-- The instance a caller reaches through `obj` in `env`. -/
def Env.instance_of (env : Env) (obj : NapiObject) : Option ModelWrap :=
  match Unwrap env obj with
  | some addr => env.instances[addr]?
  | none => none

/-- The export table of the module. -/
abbrev Exports := List (String × NapiFunction)

/-- `exports.Set(key, value)`. -/
def Exports.Set (exports : Exports) (key : String) (value : NapiFunction) : Exports :=
  (key, value) :: exports.filter (fun kv => kv.1 != key)

/-- `ModelWrap::init`. -/
def init (env : Env) (exports : Exports) : Env × Exports :=
  let prototype := get_class_constructor
  let ref : FunctionReference := { target := prototype }
  let data := env.GetInstanceData
  ({ env with data := { data with model_prototype := some ref } },
   Exports.Set exports "Model" prototype)

/-- `ModelWrap::set_model`. -/
def ModelWrap.set_model (_self : ModelWrap) (model : Option Model) : ModelWrap :=
  { _model := model }

/-- `ModelWrap::get_model`. -/
def ModelWrap.get_model (self : ModelWrap) : Option Model := self._model

/-- The call `mw->set_model(model)` on the native instance at address `mw`. -/
def Env.set_model (env : Env) (mw : Nat) (model : Option Model) : Env :=
  match env.instances[mw]? with
  | some self => { env with instances := env.instances.set mw (self.set_model model) }
  | none => env

/-- `ModelWrap::wrap`. The handle scope of its first line is closed when the
function returns or throws; the object it returns is the handle `model_js`
created inside that scope. An exception leaves the environment as it was. -/
def wrap (env : Env) (model : Option Model) : Except NativeException (NapiObject × Env) :=
  let scope := HandleScope.construct env
  let prototype := env.GetInstanceData.model_prototype
  match prototype with
  | none => .error (.openvino_throw "Invalid pointer to model prototype.")
  | some prototype =>
    let (model_js, env1) := prototype.New env
    match Unwrap env1 model_js with
    | none => .error .napi_error
    | some mw =>
      let env2 := env1.set_model mw model
      .ok (model_js, scope.destruct env2)

/-- `ModelWrap::get_name`. -/
def ModelWrap.get_name (self : ModelWrap) (_info : CallbackInfo) : Outcome NapiValue :=
  match self._model with
  | none => .null_deref
  | some model =>
    if model.get_name ≠ "" then .returned (.string model.get_name) none
    else .returned (.string "unknown") none

/-- The result of `return Output<ov::Node>::wrap(env, query)` outside a `try`. -/
def wrap_or_throw (query : Except NativeException Port) : Outcome NapiValue :=
  match query with
  | .ok p => .returned (Output.wrap p) none
  | .error e => .threw e

/-- `ModelWrap::get_input`. -/
def ModelWrap.get_input (self : ModelWrap) (info : CallbackInfo) : Outcome NapiValue :=
  if info.Length = 0 then
    match self._model with
    | none => .null_deref
    | some model =>
      match model.input with
      | .ok p => .returned (Output.wrap p) none
      | .error e => .returned .empty (reportError (.what e))
  else if info.Length ≠ 1 then
    .returned .empty
      (reportError (.text ("Invalid number of arguments -> " ++ toString info.Length)))
  else if (info.get 0).IsString then
    let tensor_name := (info.get 0).ToString
    match self._model with
    | none => .null_deref
    | some model => wrap_or_throw (model.input_by_name tensor_name)
  else if (info.get 0).IsNumber then
    let idx := (info.get 0).Int32Value
    match self._model with
    | none => .null_deref
    | some model => wrap_or_throw (model.input_at (to_size_t idx))
  else
    .returned .undefined (reportError (.text "Error while getting model outputs."))

/-- `ModelWrap::get_output`. -/
def ModelWrap.get_output (self : ModelWrap) (info : CallbackInfo) : Outcome NapiValue :=
  if info.Length = 0 then
    match self._model with
    | none => .null_deref
    | some model =>
      match model.output with
      | .ok p => .returned (Output.wrap p) none
      | .error e => .returned .empty (reportError (.what e))
  else if info.Length ≠ 1 then
    .returned .empty
      (reportError (.text ("Invalid number of arguments -> " ++ toString info.Length)))
  else if (info.get 0).IsString then
    let tensor_name := (info.get 0).ToString
    match self._model with
    | none => .null_deref
    | some model => wrap_or_throw (model.output_by_name tensor_name)
  else if (info.get 0).IsNumber then
    let idx := (info.get 0).Int32Value
    match self._model with
    | none => .null_deref
    | some model => wrap_or_throw (model.output_at (to_size_t idx))
  else
    .returned .empty (reportError (.text "Error while getting model outputs."))

/-- The range-for loop `for (auto& port : ports) js[i++] = wrap(env, port);`. -/
def fill_array : List Port → Nat → NapiArray → NapiArray
  | [], _, js => js
  | port :: rest, i, js => fill_array rest (i + 1) (NapiArray.assign js i (Output.wrap port))

/-- `ModelWrap::get_inputs`. -/
def ModelWrap.get_inputs (self : ModelWrap) (_info : CallbackInfo) : Outcome NapiArray :=
  match self._model with
  | none => .null_deref
  | some model =>
    let cm_inputs := model.inputs
    let js_inputs := NapiArray.New cm_inputs.length
    .returned (fill_array cm_inputs 0 js_inputs) none

/-- `ModelWrap::get_outputs`. -/
def ModelWrap.get_outputs (self : ModelWrap) (_info : CallbackInfo) : Outcome NapiArray :=
  match self._model with
  | none => .null_deref
  | some model =>
    let cm_outputs := model.outputs
    let js_outputs := NapiArray.New cm_outputs.length
    .returned (fill_array cm_outputs 0 js_outputs) none

/-! ## The addon state over a run of calls -/

/-- The environment together with the module's export table. -/
structure Addon where
  env : Env
  exports : Exports
  deriving DecidableEq, Repr

/-- Modelled from the spec: the state at module load, before any registration:
the prototype registration is absent, and no instance exists yet. -/
def Addon.fresh : Addon :=
  { env := { data := { model_prototype := none }, instances := [], handles := [] }
    exports := [] }

/-- The calls of this file that read or write the addon state. -/
inductive AddonCall where
  | init
  | wrap (model : Option Model)
  deriving DecidableEq, Repr

/-- The effect of one call on the addon state; a `wrap` that throws leaves it
as it was. -/
def Addon.step (s : Addon) : AddonCall → Addon
  | .init => let r := init s.env s.exports; { env := r.1, exports := r.2 }
  | .wrap model =>
    match wrap s.env model with
    | .ok r => { s with env := r.2 }
    | .error _ => s

/-- The state reached from `s` by a sequence of calls. -/
def Addon.run (s : Addon) (calls : List AddonCall) : Addon := calls.foldl Addon.step s

/-- The model with its input and output port lists exchanged. -/
def Model.swap (m : Model) : Model := { name := m.name, inputs := m.outputs, outputs := m.inputs }

/-! ## Helper lemmas -/

theorem fill_array_append (ports : List Port) (done : NapiArray) :
    fill_array ports done.length (done ++ NapiArray.New ports.length)
      = done ++ ports.map Output.wrap := by
  induction ports generalizing done with
  | nil => simp [fill_array, NapiArray.New]
  | cons p rest ih =>
    have h := ih (done ++ [Output.wrap p])
    simp only [List.length_append, List.length_singleton, List.append_assoc,
      List.singleton_append] at h
    simp only [fill_array, NapiArray.New, List.length_cons, List.map_cons]
    have hassign : NapiArray.assign (done ++ List.replicate (rest.length + 1) NapiValue.undefined)
        done.length (Output.wrap p)
        = done ++ Output.wrap p :: NapiArray.New rest.length := by
      simp [NapiArray.assign, NapiArray.New, List.replicate_succ]
    rw [hassign]
    exact h

theorem fill_array_new (ports : List Port) :
    fill_array ports 0 (NapiArray.New ports.length) = ports.map Output.wrap := by
  simpa using fill_array_append ports []

/-- What `wrap` does once the type is registered: the new instance, holding
the given pointer, is appended to the instances; the handle stack is cut back
to its height at entry; the object returned is the slot just above it. -/
theorem wrap_registered (env : Env) (proto : FunctionReference) (model : Option Model)
    (hreg : env.data.model_prototype = some proto) :
    wrap env model
      = .ok ({ slot := env.handles.length },
             { env with instances := env.instances ++ [{ _model := model }] }) := by
  have hreg2 : env.GetInstanceData.model_prototype = some proto := hreg
  simp only [wrap, hreg2, FunctionReference.New, Unwrap, Env.set_model, HandleScope.construct,
    HandleScope.destruct, ModelWrap.set_model, ModelWrap.construct]
  simp

theorem wrap_unregistered (env : Env) (model : Option Model)
    (hreg : env.data.model_prototype = none) :
    wrap env model = .error (.openvino_throw "Invalid pointer to model prototype.") := by
  have hreg2 : env.GetInstanceData.model_prototype = none := hreg
  simp [wrap, hreg2]

theorem step_wrap_data (s : Addon) (model : Option Model) :
    (s.step (.wrap model)).env.data = s.env.data := by
  cases hp : s.env.data.model_prototype with
  | none => simp [Addon.step, wrap_unregistered s.env model hp]
  | some proto => simp [Addon.step, wrap_registered s.env proto model hp]

theorem run_data_none (calls : List AddonCall) (s : Addon)
    (hs : s.env.data.model_prototype = none) (hc : AddonCall.init ∉ calls) :
    (s.run calls).env.data.model_prototype = none := by
  induction calls generalizing s with
  | nil => simpa [Addon.run] using hs
  | cons c rest ih =>
    have hstep : (s.run (c :: rest)) = (s.step c).run rest := by simp [Addon.run]
    rw [hstep]
    cases c with
    | init => simp at hc
    | wrap m =>
      have hrest : AddonCall.init ∉ rest := fun h => hc (List.mem_cons_of_mem _ h)
      apply ih _ _ hrest
      rw [step_wrap_data]
      exact hs

theorem run_data_some (calls : List AddonCall) (s : Addon)
    (h : s.env.data.model_prototype ≠ none ∨ AddonCall.init ∈ calls) :
    (s.run calls).env.data.model_prototype ≠ none := by
  induction calls generalizing s with
  | nil =>
    rcases h with h | h
    · simpa [Addon.run] using h
    · simp at h
  | cons c rest ih =>
    have hstep : (s.run (c :: rest)) = (s.step c).run rest := by simp [Addon.run]
    rw [hstep]
    apply ih
    cases c with
    | init => left; simp [Addon.step, init]
    | wrap m =>
      rcases h with h | h
      · left
        rw [step_wrap_data]
        exact h
      · right; simpa using h

theorem wrap_int32_of_range (i : Int) (hlo : -2 ^ 31 ≤ i) (hhi : i < 2 ^ 31) :
    wrap_int32 i = i := by
  unfold wrap_int32
  omega

theorem wrap_int32_idem (z : Int) : wrap_int32 (wrap_int32 z) = wrap_int32 z := by
  unfold wrap_int32
  omega

theorem Int32Value_of_isInteger (x : JsNumber) (i : Int) (hx : x.isInteger i)
    (hlo : -2 ^ 31 ≤ i) (hhi : i < 2 ^ 31) : x.Int32Value = i := by
  cases x with
  | finite m e =>
    simp only [JsNumber.isInteger] at hx
    simp only [JsNumber.Int32Value, JsNumber.trunc]
    by_cases he : 0 ≤ e
    · rw [if_pos he] at hx ⊢
      rw [hx]
      exact wrap_int32_of_range i hlo hhi
    · rw [if_neg he] at hx ⊢
      have hpow : (2 : Int) ^ (-e).toNat ≠ 0 := pow_ne_zero _ (by decide)
      rw [hx, Int.mul_tdiv_cancel i hpow]
      exact wrap_int32_of_range i hlo hhi
  | nan => exact absurd hx (by simp [JsNumber.isInteger])
  | pos_inf => exact absurd hx (by simp [JsNumber.isInteger])
  | neg_inf => exact absurd hx (by simp [JsNumber.isInteger])

theorem Int32Value_range (x : JsNumber) :
    -2 ^ 31 ≤ x.Int32Value ∧ x.Int32Value < 2 ^ 31 := by
  cases x with
  | finite m e =>
    simp only [JsNumber.Int32Value, wrap_int32]
    omega
  | nan => simp [JsNumber.Int32Value]
  | pos_inf => simp [JsNumber.Int32Value]
  | neg_inf => simp [JsNumber.Int32Value]

theorem Int32Value_idem (x : JsNumber) :
    (JsNumber.finite x.Int32Value 0).Int32Value = x.Int32Value := by
  cases x with
  | finite m e => simp [JsNumber.Int32Value, JsNumber.trunc, wrap_int32_idem]
  | nan => simp [JsNumber.Int32Value, JsNumber.trunc, wrap_int32]
  | pos_inf => simp [JsNumber.Int32Value, JsNumber.trunc, wrap_int32]
  | neg_inf => simp [JsNumber.Int32Value, JsNumber.trunc, wrap_int32]

theorem to_size_t_of_nonneg (i : Int) (hlo : 0 ≤ i) (hhi : i < 2 ^ 31) :
    to_size_t i = i.toNat := by
  unfold to_size_t
  omega

theorem to_size_t_of_neg (i : Int) (hlo : -2 ^ 31 ≤ i) (hneg : i < 0) :
    2 ^ 63 ≤ to_size_t i := by
  unfold to_size_t
  omega

/-- The positional lookup `ports[i]?` as the claims about an index use it. -/
theorem index_lookup (ports : List Port) (i : Int) (hlo : -2 ^ 31 ≤ i) (hhi : i < 2 ^ 31)
    (hsize : ports.length < 2 ^ 63) :
    (0 ≤ i ∧ i < ports.length →
      ∃ p, ports[to_size_t i]? = some p ∧ (ports.map Output.wrap)[i.toNat]? = some (Output.wrap p)) ∧
    (i < 0 ∨ (ports.length : Int) ≤ i → ports[to_size_t i]? = none) := by
  constructor
  · rintro ⟨h0, hN⟩
    have hlt : i.toNat < ports.length := by omega
    rw [to_size_t_of_nonneg i h0 hhi]
    exact ⟨ports[i.toNat], List.getElem?_eq_getElem hlt, by
      simp [List.getElem?_map, List.getElem?_eq_getElem hlt]⟩
  · intro h
    apply List.getElem?_eq_none
    rcases h with h | h
    · have := to_size_t_of_neg i hlo h
      omega
    · have h0 : 0 ≤ i := by omega
      rw [to_size_t_of_nonneg i h0 hhi]
      omega

/-! ## The claims -/

/-- C1: on a bound model `get_name` returns the engine-reported name when it is
not empty and the literal "unknown" when it is empty; it never returns the
empty string, and reports no error. -/
theorem get_name_spec (m : Model) (info : CallbackInfo) :
    (m.name ≠ "" →
      ModelWrap.get_name { _model := some m } info = .returned (.string m.name) none) ∧
    (m.name = "" →
      ModelWrap.get_name { _model := some m } info = .returned (.string "unknown") none) ∧
    (∀ reported, ModelWrap.get_name { _model := some m } info ≠ .returned (.string "") reported) := by
  refine ⟨fun h => ?_, fun h => ?_, fun reported => ?_⟩
  · simp [ModelWrap.get_name, Model.get_name, h]
  · simp [ModelWrap.get_name, Model.get_name, h]
  · by_cases h : m.name = ""
    · simp [ModelWrap.get_name, Model.get_name, h]
    · simp [ModelWrap.get_name, Model.get_name, h]

/-- Witness for C1: a named model and a model whose name is empty. -/
theorem get_name_spec_witness :
    ModelWrap.get_name { _model := some ⟨"resnet", [], []⟩ } []
      = .returned (.string "resnet") none ∧
    ModelWrap.get_name { _model := some ⟨"", [], []⟩ } []
      = .returned (.string "unknown") none :=
  ⟨(get_name_spec ⟨"resnet", [], []⟩ []).1 (by decide),
   (get_name_spec ⟨"", [], []⟩ []).2.1 rfl⟩

/-- C2: on a bound model `get_inputs` (resp. `get_outputs`) returns, without
reporting an error, an array of exactly as many elements as the engine reports
input (resp. output) ports, whose element at each index is the wrapping of the
port at that index: the array is the port list wrapped element by element, so
nothing is skipped, duplicated or reordered; with no ports the array is empty. -/
theorem get_inputs_outputs_spec (m : Model) (info : CallbackInfo) :
    (∃ arr, ModelWrap.get_inputs { _model := some m } info = .returned arr none ∧
      arr = m.inputs.map Output.wrap ∧
      arr.length = m.inputs.length ∧
      (∀ i (h : i < m.inputs.length), arr[i]? = some (Output.wrap m.inputs[i])) ∧
      (m.inputs = [] → arr = [])) ∧
    (∃ arr, ModelWrap.get_outputs { _model := some m } info = .returned arr none ∧
      arr = m.outputs.map Output.wrap ∧
      arr.length = m.outputs.length ∧
      (∀ i (h : i < m.outputs.length), arr[i]? = some (Output.wrap m.outputs[i])) ∧
      (m.outputs = [] → arr = [])) := by
  constructor
  · refine ⟨m.inputs.map Output.wrap, ?_, rfl, by simp, ?_, ?_⟩
    · simp [ModelWrap.get_inputs, fill_array_new]
    · intro i h
      simp [List.getElem?_map, List.getElem?_eq_getElem h]
    · intro h; simp [h]
  · refine ⟨m.outputs.map Output.wrap, ?_, rfl, by simp, ?_, ?_⟩
    · simp [ModelWrap.get_outputs, fill_array_new]
    · intro i h
      simp [List.getElem?_map, List.getElem?_eq_getElem h]
    · intro h; simp [h]

/-- Witness for C2: a model with two inputs and no output. -/
theorem get_inputs_outputs_spec_witness :
    ModelWrap.get_inputs { _model := some ⟨"net", [⟨0, "a"⟩, ⟨1, "b"⟩], []⟩ } []
      = .returned [.output ⟨0, "a"⟩, .output ⟨1, "b"⟩] none ∧
    ModelWrap.get_outputs { _model := some ⟨"net", [⟨0, "a"⟩, ⟨1, "b"⟩], []⟩ } []
      = .returned [] none := by
  obtain ⟨⟨a, ha, hmap, -⟩, ⟨b, hb, hmapb, -⟩⟩ :=
    get_inputs_outputs_spec ⟨"net", [⟨0, "a"⟩, ⟨1, "b"⟩], []⟩ []
  subst hmap hmapb
  exact ⟨ha, hb⟩

/-- C3: starting from the state at module load, after any sequence of `init` and
`wrap` calls in which `init` does not occur, `wrap` raises the initialization
error "Invalid pointer to model prototype." (so no instance is produced); after
any sequence in which `init` occurs, `wrap` returns an instance and so does not
raise that error. -/
theorem wrap_initialization_error (calls : List AddonCall) (model : Option Model) :
    (AddonCall.init ∉ calls →
      wrap (Addon.fresh.run calls).env model
        = .error (.openvino_throw "Invalid pointer to model prototype.")) ∧
    (AddonCall.init ∈ calls →
      (∃ r, wrap (Addon.fresh.run calls).env model = .ok r) ∧
      wrap (Addon.fresh.run calls).env model
        ≠ .error (.openvino_throw "Invalid pointer to model prototype.")) := by
  constructor
  · intro h
    have hnone := run_data_none calls Addon.fresh rfl h
    exact wrap_unregistered _ model hnone
  · intro h
    have hsome := run_data_some calls Addon.fresh (Or.inr h)
    cases hp : (Addon.fresh.run calls).env.data.model_prototype with
    | none => exact absurd hp hsome
    | some proto => simp [wrap_registered _ proto model hp]

/-- Witness for C3: `wrap` before any call fails, `wrap` right after `init` succeeds. -/
theorem wrap_initialization_error_witness :
    wrap (Addon.fresh.run []).env (some { name := "net", inputs := [], outputs := [] })
        = .error (.openvino_throw "Invalid pointer to model prototype.") ∧
    (∃ r, wrap (Addon.fresh.run [AddonCall.init]).env
        (some { name := "net", inputs := [], outputs := [] }) = .ok r) :=
  ⟨(wrap_initialization_error [] _).1 (by simp),
   ((wrap_initialization_error [AddonCall.init] _).2 (by simp)).1⟩

/-- C4: on a bound model, `get_input` with no argument returns, when the model
has exactly one input, the wrapping of that port, which is element 0 of
`get_inputs`, and reports no error; when the model has zero or several inputs
the engine's exception is caught, its message is reported through the error
channel and the empty value is returned (nothing is thrown). Likewise for
`get_output` and `get_outputs`. -/
theorem get_input_output_no_args (m : Model) :
    (m.inputs.length = 1 →
      ∃ p, m.inputs = [p] ∧
        ModelWrap.get_input { _model := some m } [] = .returned (Output.wrap p) none ∧
        ∃ arr, ModelWrap.get_inputs { _model := some m } [] = .returned arr none ∧
          arr[0]? = some (Output.wrap p)) ∧
    (m.inputs.length ≠ 1 →
      ∃ e, m.input = .error e ∧
        ModelWrap.get_input { _model := some m } [] = .returned .empty (some (.what e))) ∧
    (m.outputs.length = 1 →
      ∃ p, m.outputs = [p] ∧
        ModelWrap.get_output { _model := some m } [] = .returned (Output.wrap p) none ∧
        ∃ arr, ModelWrap.get_outputs { _model := some m } [] = .returned arr none ∧
          arr[0]? = some (Output.wrap p)) ∧
    (m.outputs.length ≠ 1 →
      ∃ e, m.output = .error e ∧
        ModelWrap.get_output { _model := some m } [] = .returned .empty (some (.what e))) := by
  refine ⟨fun h => ?_, fun h => ?_, fun h => ?_, fun h => ?_⟩
  · obtain ⟨p, hp⟩ := List.length_eq_one.mp h
    refine ⟨p, hp, ?_, [Output.wrap p], ?_, rfl⟩
    · simp [ModelWrap.get_input, CallbackInfo.Length, Model.input, hp]
    · have hfill := fill_array_new [p]
      simpa [ModelWrap.get_inputs, hp] using hfill
  · refine ⟨.engine .not_unique, ?_, ?_⟩
    · rcases hi : m.inputs with _ | ⟨p, _ | ⟨q, r⟩⟩
      · simp [Model.input, hi]
      · simp [hi] at h
      · simp [Model.input, hi]
    · rcases hi : m.inputs with _ | ⟨p, _ | ⟨q, r⟩⟩
      · simp [ModelWrap.get_input, CallbackInfo.Length, Model.input, hi, reportError]
      · simp [hi] at h
      · simp [ModelWrap.get_input, CallbackInfo.Length, Model.input, hi, reportError]
  · obtain ⟨p, hp⟩ := List.length_eq_one.mp h
    refine ⟨p, hp, ?_, [Output.wrap p], ?_, rfl⟩
    · simp [ModelWrap.get_output, CallbackInfo.Length, Model.output, hp]
    · have hfill := fill_array_new [p]
      simpa [ModelWrap.get_outputs, hp] using hfill
  · refine ⟨.engine .not_unique, ?_, ?_⟩
    · rcases hi : m.outputs with _ | ⟨p, _ | ⟨q, r⟩⟩
      · simp [Model.output, hi]
      · simp [hi] at h
      · simp [Model.output, hi]
    · rcases hi : m.outputs with _ | ⟨p, _ | ⟨q, r⟩⟩
      · simp [ModelWrap.get_output, CallbackInfo.Length, Model.output, hi, reportError]
      · simp [hi] at h
      · simp [ModelWrap.get_output, CallbackInfo.Length, Model.output, hi, reportError]

/-- Witness for C4: one model with a single input and two outputs. -/
theorem get_input_output_no_args_witness :
    (∃ p, ([⟨0, "x"⟩] : List Port) = [p] ∧
        ModelWrap.get_input { _model := some ⟨"net", [⟨0, "x"⟩], [⟨1, "y"⟩, ⟨2, "z"⟩]⟩ } []
          = .returned (Output.wrap p) none ∧
        ∃ arr, ModelWrap.get_inputs { _model := some ⟨"net", [⟨0, "x"⟩], [⟨1, "y"⟩, ⟨2, "z"⟩]⟩ } []
            = .returned arr none ∧
          arr[0]? = some (Output.wrap p)) ∧
    (∃ e, Model.output ⟨"net", [⟨0, "x"⟩], [⟨1, "y"⟩, ⟨2, "z"⟩]⟩ = .error e ∧
        ModelWrap.get_output { _model := some ⟨"net", [⟨0, "x"⟩], [⟨1, "y"⟩, ⟨2, "z"⟩]⟩ } []
          = .returned .empty (some (.what e))) :=
  ⟨(get_input_output_no_args ⟨"net", [⟨0, "x"⟩], [⟨1, "y"⟩, ⟨2, "z"⟩]⟩).1 (by decide),
   (get_input_output_no_args ⟨"net", [⟨0, "x"⟩], [⟨1, "y"⟩, ⟨2, "z"⟩]⟩).2.2.2 (by decide)⟩

/-- C5: on a bound model with `N` inputs (a vector, so `N < 2 ^ 63`), for a
single numeric argument that is exactly an integer `i` in the signed 32-bit
range: when `0 ≤ i < N`, `get_input` returns the element at index `i` of
`get_inputs` (the wrapping of the `i`-th port) and reports no error; when
`i < 0` or `N ≤ i` nothing is returned and the engine's out-of-range exception
leaves the call. Likewise for `get_output` and `get_outputs`. -/
theorem get_input_output_by_index (m : Model) (x : JsNumber) (i : Int)
    (hx : x.isInteger i) (hlo : -2 ^ 31 ≤ i) (hhi : i < 2 ^ 31)
    (hin : m.inputs.length < 2 ^ 63) (hout : m.outputs.length < 2 ^ 63) :
    (0 ≤ i ∧ i < m.inputs.length →
      ∃ v arr, ModelWrap.get_input { _model := some m } [.number x] = .returned v none ∧
        ModelWrap.get_inputs { _model := some m } [] = .returned arr none ∧
        arr[i.toNat]? = some v ∧ m.inputs[i.toNat]?.map Output.wrap = some v) ∧
    (i < 0 ∨ (m.inputs.length : Int) ≤ i →
      ModelWrap.get_input { _model := some m } [.number x]
        = .threw (.engine (.out_of_range (to_size_t i)))) ∧
    (0 ≤ i ∧ i < m.outputs.length →
      ∃ v arr, ModelWrap.get_output { _model := some m } [.number x] = .returned v none ∧
        ModelWrap.get_outputs { _model := some m } [] = .returned arr none ∧
        arr[i.toNat]? = some v ∧ m.outputs[i.toNat]?.map Output.wrap = some v) ∧
    (i < 0 ∨ (m.outputs.length : Int) ≤ i →
      ModelWrap.get_output { _model := some m } [.number x]
        = .threw (.engine (.out_of_range (to_size_t i)))) := by
  have hval := Int32Value_of_isInteger x i hx hlo hhi
  have hI := index_lookup m.inputs i hlo hhi hin
  have hO := index_lookup m.outputs i hlo hhi hout
  refine ⟨fun h => ?_, fun h => ?_, fun h => ?_, fun h => ?_⟩
  · obtain ⟨p, hp, hq⟩ := hI.1 h
    refine ⟨Output.wrap p, m.inputs.map Output.wrap, ?_, ?_, hq, ?_⟩
    · simp [ModelWrap.get_input, CallbackInfo.Length, CallbackInfo.get, JsArg.IsString,
        JsArg.IsNumber, JsArg.Int32Value, hval, Model.input_at, hp, wrap_or_throw]
    · simp [ModelWrap.get_inputs, fill_array_new]
    · rw [← List.getElem?_map]; exact hq
  · have hp := hI.2 h
    simp [ModelWrap.get_input, CallbackInfo.Length, CallbackInfo.get, JsArg.IsString,
      JsArg.IsNumber, JsArg.Int32Value, hval, Model.input_at, hp, wrap_or_throw]
  · obtain ⟨p, hp, hq⟩ := hO.1 h
    refine ⟨Output.wrap p, m.outputs.map Output.wrap, ?_, ?_, hq, ?_⟩
    · simp [ModelWrap.get_output, CallbackInfo.Length, CallbackInfo.get, JsArg.IsString,
        JsArg.IsNumber, JsArg.Int32Value, hval, Model.output_at, hp, wrap_or_throw]
    · simp [ModelWrap.get_outputs, fill_array_new]
    · rw [← List.getElem?_map]; exact hq
  · have hp := hO.2 h
    simp [ModelWrap.get_output, CallbackInfo.Length, CallbackInfo.get, JsArg.IsString,
      JsArg.IsNumber, JsArg.Int32Value, hval, Model.output_at, hp, wrap_or_throw]

/-- Witness for C5: index 1 of a model with two inputs and one output; the
input lookup is in range, the output lookup is out of range. -/
theorem get_input_output_by_index_witness :
    (∃ v arr,
        ModelWrap.get_input { _model := some ⟨"net", [⟨0, "a"⟩, ⟨1, "b"⟩], [⟨2, "y"⟩]⟩ }
          [.number (.finite 1 0)] = .returned v none ∧
        ModelWrap.get_inputs { _model := some ⟨"net", [⟨0, "a"⟩, ⟨1, "b"⟩], [⟨2, "y"⟩]⟩ } []
          = .returned arr none ∧
        arr[(1 : Int).toNat]? = some v ∧
        ([⟨0, "a"⟩, ⟨1, "b"⟩] : List Port)[(1 : Int).toNat]?.map Output.wrap = some v) ∧
    ModelWrap.get_output { _model := some ⟨"net", [⟨0, "a"⟩, ⟨1, "b"⟩], [⟨2, "y"⟩]⟩ }
        [.number (.finite 1 0)] = .threw (.engine (.out_of_range (to_size_t 1))) :=
  ⟨(get_input_output_by_index ⟨"net", [⟨0, "a"⟩, ⟨1, "b"⟩], [⟨2, "y"⟩]⟩ (.finite 1 0) 1
      (by decide) (by decide) (by decide) (by decide) (by decide)).1 (by decide),
   (get_input_output_by_index ⟨"net", [⟨0, "a"⟩, ⟨1, "b"⟩], [⟨2, "y"⟩]⟩ (.finite 1 0) 1
      (by decide) (by decide) (by decide) (by decide) (by decide)).2.2.2 (by decide)⟩

/-- C6, as stated, fails: the non-integer number 3.14 (the double
`7070651414971679 * 2 ^ (-51)`) is a number, so it is coerced to the index 3;
on a model with four inputs `get_input` returns the fourth port and reports
nothing, and on a model with no input the out-of-range exception is thrown. -/
theorem get_input_non_integer_counterexample :
    (∀ i : Int, ¬ (JsNumber.finite 7070651414971679 (-51)).isInteger i) ∧
    ModelWrap.get_input
        { _model := some ⟨"net", [⟨0, "a"⟩, ⟨1, "b"⟩, ⟨2, "c"⟩, ⟨3, "d"⟩], []⟩ }
        [.number (.finite 7070651414971679 (-51))]
      = .returned (.output ⟨3, "d"⟩) none ∧
    ModelWrap.get_input { _model := some ⟨"net", [], []⟩ }
        [.number (.finite 7070651414971679 (-51))]
      = .threw (.engine (.out_of_range 3)) := by
  refine ⟨fun i hi => ?_, by decide, by decide⟩
  simp only [JsNumber.isInteger] at hi
  rw [if_neg (by decide)] at hi
  have h2 : ((2 : Int) ^ (-(-51 : Int)).toNat) = 2251799813685248 := by decide
  rw [h2] at hi
  omega

/-- C6, amended: on a bound model, `get_input` with exactly one argument that
is neither a string nor a number (an object, a boolean, null, undefined)
reports an argument error through the error channel and returns undefined; it
throws nothing and returns no port. A number, integer or not, is never
rejected: `Int32Value` coerces it to a signed 32-bit integer (3.14 to 3, -3.14
to -3, 2^32 + 1 to 1, NaN to 0), which converted to `size_t` is the position
looked up; the call returns the wrapping of the port at that position with
nothing reported, or, when there is none, the engine's out-of-range exception
leaves the call. -/
theorem get_input_one_arg_other (m : Model) :
    (∀ a : JsArg, a.IsString = false → a.IsNumber = false →
      ∃ text, ModelWrap.get_input { _model := some m } [a]
        = .returned .undefined (some (.text text))) ∧
    (∀ x : JsNumber,
      (-2 ^ 31 ≤ x.Int32Value ∧ x.Int32Value < 2 ^ 31) ∧
      (∀ p, m.inputs[to_size_t x.Int32Value]? = some p →
        ModelWrap.get_input { _model := some m } [.number x]
          = .returned (Output.wrap p) none) ∧
      (m.inputs[to_size_t x.Int32Value]? = none →
        ModelWrap.get_input { _model := some m } [.number x]
          = .threw (.engine (.out_of_range (to_size_t x.Int32Value))))) ∧
    ((JsNumber.finite 7070651414971679 (-51)).Int32Value = 3 ∧
      (JsNumber.finite (-7070651414971679) (-51)).Int32Value = -3 ∧
      (JsNumber.finite 4294967297 0).Int32Value = 1 ∧
      (JsNumber.finite 2147483648 0).Int32Value = -2147483648 ∧
      JsNumber.nan.Int32Value = 0 ∧
      to_size_t 3 = 3 ∧ to_size_t (-1) = 2 ^ 64 - 1) := by
  refine ⟨?_, ?_, by decide⟩
  · intro a hs hn
    exact ⟨"Error while getting model outputs.", by
      simp [ModelWrap.get_input, CallbackInfo.Length, CallbackInfo.get, hs, hn, reportError]⟩
  · intro x
    refine ⟨Int32Value_range x, fun p hp => ?_, fun hp => ?_⟩
    · simp [ModelWrap.get_input, CallbackInfo.Length, CallbackInfo.get, JsArg.IsString,
        JsArg.IsNumber, JsArg.Int32Value, Model.input_at, hp, wrap_or_throw]
    · simp [ModelWrap.get_input, CallbackInfo.Length, CallbackInfo.get, JsArg.IsString,
        JsArg.IsNumber, JsArg.Int32Value, Model.input_at, hp, wrap_or_throw]

/-- Witness for C6 amended: an object argument is rejected; 3.14 on a model
with four inputs yields the port at position 3, and on a model with one input
the out-of-range exception. -/
theorem get_input_one_arg_other_witness :
    (∃ text, ModelWrap.get_input { _model := some ⟨"net", [⟨0, "a"⟩], []⟩ } [.object]
      = .returned .undefined (some (.text text))) ∧
    ModelWrap.get_input
        { _model := some ⟨"net", [⟨0, "a"⟩, ⟨1, "b"⟩, ⟨2, "c"⟩, ⟨3, "d"⟩], []⟩ }
        [.number (.finite 7070651414971679 (-51))]
      = .returned (Output.wrap ⟨3, "d"⟩) none ∧
    ModelWrap.get_input { _model := some ⟨"net", [⟨0, "a"⟩], []⟩ }
        [.number (.finite 7070651414971679 (-51))]
      = .threw (.engine (.out_of_range (to_size_t
          (JsNumber.finite 7070651414971679 (-51)).Int32Value))) :=
  ⟨(get_input_one_arg_other ⟨"net", [⟨0, "a"⟩], []⟩).1 .object (by decide) (by decide),
   ((get_input_one_arg_other ⟨"net", [⟨0, "a"⟩, ⟨1, "b"⟩, ⟨2, "c"⟩, ⟨3, "d"⟩], []⟩).2.1
      (.finite 7070651414971679 (-51))).2.1 ⟨3, "d"⟩ (by decide),
   ((get_input_one_arg_other ⟨"net", [⟨0, "a"⟩], []⟩).2.1
      (.finite 7070651414971679 (-51))).2.2 (by decide)⟩

/-- C7: on a bound model, for a single textual argument `t`: when some input
port is named `t`, `get_input` returns the wrapping of an input port named `t`
(the first one) and reports no error; when no input port is named `t`, the
engine's lookup failure leaves the call as an exception, so nothing is returned
and nothing is reported. Likewise for `get_output` over the output ports. -/
theorem get_input_output_by_name (m : Model) (t : String) :
    ((∃ p ∈ m.inputs, p.name = t) →
      ∃ p ∈ m.inputs, p.name = t ∧
        m.inputs.find? (fun q => q.name == t) = some p ∧
        ModelWrap.get_input { _model := some m } [.string t]
          = .returned (Output.wrap p) none) ∧
    ((∀ p ∈ m.inputs, p.name ≠ t) →
      ModelWrap.get_input { _model := some m } [.string t]
        = .threw (.engine (.name_not_found t))) ∧
    ((∃ p ∈ m.outputs, p.name = t) →
      ∃ p ∈ m.outputs, p.name = t ∧
        m.outputs.find? (fun q => q.name == t) = some p ∧
        ModelWrap.get_output { _model := some m } [.string t]
          = .returned (Output.wrap p) none) ∧
    ((∀ p ∈ m.outputs, p.name ≠ t) →
      ModelWrap.get_output { _model := some m } [.string t]
        = .threw (.engine (.name_not_found t))) := by
  refine ⟨fun h => ?_, fun h => ?_, fun h => ?_, fun h => ?_⟩
  · cases hf : m.inputs.find? (fun q => q.name == t) with
    | none =>
      obtain ⟨p, hp, hn⟩ := h
      have := List.find?_eq_none.mp hf p hp
      simp [hn] at this
    | some p =>
      refine ⟨p, List.mem_of_find?_eq_some hf, ?_, rfl, ?_⟩
      · simpa using List.find?_some hf
      · simp [ModelWrap.get_input, CallbackInfo.Length, CallbackInfo.get, JsArg.IsString,
          JsArg.ToString, Model.input_by_name, hf, wrap_or_throw]
  · have hf : m.inputs.find? (fun q => q.name == t) = none := by
      apply List.find?_eq_none.mpr
      intro p hp
      simpa using h p hp
    simp [ModelWrap.get_input, CallbackInfo.Length, CallbackInfo.get, JsArg.IsString,
      JsArg.ToString, Model.input_by_name, hf, wrap_or_throw]
  · cases hf : m.outputs.find? (fun q => q.name == t) with
    | none =>
      obtain ⟨p, hp, hn⟩ := h
      have := List.find?_eq_none.mp hf p hp
      simp [hn] at this
    | some p =>
      refine ⟨p, List.mem_of_find?_eq_some hf, ?_, rfl, ?_⟩
      · simpa using List.find?_some hf
      · simp [ModelWrap.get_output, CallbackInfo.Length, CallbackInfo.get, JsArg.IsString,
          JsArg.ToString, Model.output_by_name, hf, wrap_or_throw]
  · have hf : m.outputs.find? (fun q => q.name == t) = none := by
      apply List.find?_eq_none.mpr
      intro p hp
      simpa using h p hp
    simp [ModelWrap.get_output, CallbackInfo.Length, CallbackInfo.get, JsArg.IsString,
      JsArg.ToString, Model.output_by_name, hf, wrap_or_throw]

/-- Witness for C7: the name "tensorA" is an input of the model and not an output. -/
theorem get_input_output_by_name_witness :
    (∃ p ∈ ([⟨0, "x"⟩, ⟨1, "tensorA"⟩] : List Port), p.name = "tensorA" ∧
        ([⟨0, "x"⟩, ⟨1, "tensorA"⟩] : List Port).find? (fun q => q.name == "tensorA") = some p ∧
        ModelWrap.get_input { _model := some ⟨"net", [⟨0, "x"⟩, ⟨1, "tensorA"⟩], [⟨2, "y"⟩]⟩ }
          [.string "tensorA"] = .returned (Output.wrap p) none) ∧
    ModelWrap.get_output { _model := some ⟨"net", [⟨0, "x"⟩, ⟨1, "tensorA"⟩], [⟨2, "y"⟩]⟩ }
        [.string "tensorA"] = .threw (.engine (.name_not_found "tensorA")) :=
  ⟨(get_input_output_by_name ⟨"net", [⟨0, "x"⟩, ⟨1, "tensorA"⟩], [⟨2, "y"⟩]⟩ "tensorA").1
      ⟨⟨1, "tensorA"⟩, by decide, rfl⟩,
   (get_input_output_by_name ⟨"net", [⟨0, "x"⟩, ⟨1, "tensorA"⟩], [⟨2, "y"⟩]⟩ "tensorA").2.2.2
      (by decide)⟩

/-- On a bound instance none of the accessors dereferences an unset handle,
whatever the arguments. -/
theorem bound_accessors_safe (m : Model) (info : CallbackInfo) :
    ModelWrap.get_name { _model := some m } info ≠ .null_deref ∧
    ModelWrap.get_input { _model := some m } info ≠ .null_deref ∧
    ModelWrap.get_output { _model := some m } info ≠ .null_deref ∧
    ModelWrap.get_inputs { _model := some m } info ≠ .null_deref ∧
    ModelWrap.get_outputs { _model := some m } info ≠ .null_deref := by
  refine ⟨?_, ?_, ?_, ?_, ?_⟩
  · unfold ModelWrap.get_name
    simp only
    split <;> simp
  · unfold ModelWrap.get_input wrap_or_throw
    simp only
    repeat' split
    all_goals simp
  · unfold ModelWrap.get_output wrap_or_throw
    simp only
    repeat' split
    all_goals simp
  · simp [ModelWrap.get_inputs]
  · simp [ModelWrap.get_outputs]

/-- C8 at the failing input: in the environment right after `init`, `wrap` of a
model does construct an instance bound to the model, but the object it returns
is a handle of the scope `wrap` has closed: the handle stack is empty again, so
the object names no instance; once the caller creates one more object, the
same slot names that object, an unbound instance on which `get_name`
dereferences the unset handle. -/
theorem wrap_returns_released_handle :
    wrap (init Addon.fresh.env []).1 (some ⟨"net", [⟨0, "x"⟩], [⟨1, "y"⟩]⟩)
      = .ok ({ slot := 0 },
             { data := { model_prototype := some { target := get_class_constructor } }
               instances := [{ _model := some ⟨"net", [⟨0, "x"⟩], [⟨1, "y"⟩]⟩ }]
               handles := [] }) ∧
    Env.instance_of
        { data := { model_prototype := some { target := get_class_constructor } }
          instances := [{ _model := some ⟨"net", [⟨0, "x"⟩], [⟨1, "y"⟩]⟩ }]
          handles := [] }
        { slot := 0 } = none ∧
    Env.instance_of
        (FunctionReference.New { target := get_class_constructor }
          { data := { model_prototype := some { target := get_class_constructor } }
            instances := [{ _model := some ⟨"net", [⟨0, "x"⟩], [⟨1, "y"⟩]⟩ }]
            handles := [] }).2
        { slot := 0 } = some { _model := none } ∧
    ModelWrap.get_name { _model := none } [] = .null_deref := by
  refine ⟨?_, by decide, by decide, by decide⟩
  rw [wrap_registered _ { target := get_class_constructor } _ rfl]
  rfl

/-- C9: for every argument list of length `n ≥ 2`, whatever the arguments,
`get_input` and `get_output` report "Invalid number of arguments -> n" through
the error channel, return the empty value and throw nothing; this holds on any
instance, even an unbound one, so the model handle is not touched and the
engine is asked for no port. -/
theorem get_input_output_arity (self : ModelWrap) (info : CallbackInfo)
    (h : 2 ≤ info.length) :
    self.get_input info
      = .returned .empty
          (some (.text ("Invalid number of arguments -> " ++ toString info.length))) ∧
    self.get_output info
      = .returned .empty
          (some (.text ("Invalid number of arguments -> " ++ toString info.length))) := by
  have h0 : info.length ≠ 0 := by omega
  have h1 : info.length ≠ 1 := by omega
  constructor
  · simp [ModelWrap.get_input, CallbackInfo.Length, h0, h1, reportError]
  · simp [ModelWrap.get_output, CallbackInfo.Length, h0, h1, reportError]

/-- Witness for C9: two arguments on an unbound instance. -/
theorem get_input_output_arity_witness :
    ModelWrap.get_input { _model := none } [.string "x", .number (.finite 0 0)]
      = .returned .empty (some (.text "Invalid number of arguments -> 2")) ∧
    ModelWrap.get_output { _model := none } [.string "x", .number (.finite 0 0)]
      = .returned .empty (some (.text "Invalid number of arguments -> 2")) :=
  get_input_output_arity { _model := none } [.string "x", .number (.finite 0 0)] (by decide)

/-- Outside the last branch `get_output` mirrors `get_input`: when the call
does not have exactly one argument, or the argument is a string or a number,
`get_output` on a model is `get_input` on the model with its port lists
exchanged. -/
theorem get_output_mirror_of (m : Model) (info : CallbackInfo)
    (h : info.length ≠ 1 ∨ (info.get 0).IsString = true ∨ (info.get 0).IsNumber = true) :
    ModelWrap.get_output { _model := some m } info
      = ModelWrap.get_input { _model := some m.swap } info := by
  have hz : m.swap.input = m.output := rfl
  have hn : ∀ t, m.swap.input_by_name t = m.output_by_name t := fun _ => rfl
  have ha : ∀ i, m.swap.input_at i = m.output_at i := fun _ => rfl
  unfold ModelWrap.get_output ModelWrap.get_input
  simp only [hz, hn, ha]
  by_cases h0 : CallbackInfo.Length info = 0
  · simp [h0]
  · by_cases h1 : CallbackInfo.Length info = 1
    · have h1l : info.length = 1 := h1
      rcases h with h | h | h
      · exact absurd h1l h
      · simp [h0, h1, h]
      · by_cases hs : (info.get 0).IsString = true
        · simp [h0, h1, hs]
        · simp [h0, h1, hs, h]
    · simp [h0, h1]

/-- C10 at the failing input: with one object argument `get_input` returns the
runtime's undefined value while `get_output` returns the empty value, so
`get_output` on a model differs from `get_input` on the model with its port
lists exchanged. -/
theorem get_output_mirror_fails :
    ModelWrap.get_input { _model := some (Model.swap ⟨"net", [⟨0, "x"⟩], [⟨1, "y"⟩]⟩) } [.object]
      = .returned .undefined (some (.text "Error while getting model outputs.")) ∧
    ModelWrap.get_output { _model := some ⟨"net", [⟨0, "x"⟩], [⟨1, "y"⟩]⟩ } [.object]
      = .returned .empty (some (.text "Error while getting model outputs.")) ∧
    ModelWrap.get_output { _model := some ⟨"net", [⟨0, "x"⟩], [⟨1, "y"⟩]⟩ } [.object]
      ≠ ModelWrap.get_input { _model := some (Model.swap ⟨"net", [⟨0, "x"⟩], [⟨1, "y"⟩]⟩) }
          [.object] := by
  refine ⟨by decide, by decide, by decide⟩

end ModelWrapSpec
